import Mathlib

/-!
Verification of the field-line ODE problem core (`SPECBfield`) of pyoculus:
the geometry classifier run at construction, the two pass-through ODE
right-hand-side wrappers, and the geometry-branching coordinate converter.

The external Fortran field oracle (`self.fortran_module`) is modelled as a
record of three fallible query functions; a Python exception raised by the
oracle is modelled as `Except.error`, and Python's implicit `None` return
(when `convert_coords` falls through every geometry branch) as `Option.none`.
Real (floating-point) quantities are modelled as real numbers.
-/

open Real

/-- The field oracle (`self.fortran_module` in the source): three query
functions, each of which may fail with an error of type `ε` (a raised
Python exception).  `get_bfield` answers RHS queries, `get_bfield_tangent`
tangent-RHS queries, and `get_xyz` coordinate queries. -/
structure FortranModule (ε : Type) where
  get_bfield : ℝ → ℝ × ℝ → Except ε (ℝ × ℝ)
  get_bfield_tangent : ℝ → ℝ × ℝ × ℝ × ℝ × ℝ × ℝ → Except ε (ℝ × ℝ × ℝ × ℝ × ℝ × ℝ)
  get_xyz : ℝ × ℝ × ℝ → Except ε (ℝ × ℝ × ℝ)

/-- Errors raised by the constructor itself (`raise ValueError(...)`). -/
inductive SPECError where
  | valueError (msg : String)
deriving DecidableEq

/-- The attributes `SPECBfield.__init__` sets on the problem object:
`problem_size` and the three Poincaré-plot metadata fields. -/
structure SPECBfieldMeta where
  problem_size : ℕ
  poincare_plot_type : String
  poincare_plot_xlabel : String
  poincare_plot_ylabel : String
deriving DecidableEq

/-- `SPECBfield.__init__` after the base-class call: sets
`problem_size = 2`, then branches on the geometry flag `Igeometry` to fix
the plot type and axis labels, raising `ValueError("Unknown Igeometry!")`
for any other flag. -/
def specBfieldInit (Igeometry : ℤ) : Except SPECError SPECBfieldMeta :=
  if Igeometry = 1 then
    .ok ⟨2, "yx", "$\\theta$", "R"⟩
  else if Igeometry = 2 then
    .ok ⟨2, "RZ", "X(m)", "Y(m)"⟩
  else if Igeometry = 3 then
    .ok ⟨2, "RZ", "R(m)", "Z(m)"⟩
  else
    .error (.valueError "Unknown Igeometry!")

/-- `SPECBfield.f`: the ODE RHS wrapper.  It forwards `(zeta, st)` to the
oracle's `get_bfield` unchanged; the optional `arg1` parameter is accepted
and ignored, and any oracle error propagates verbatim. -/
def f {ε α : Type} (fortran_module : FortranModule ε) (zeta : ℝ) (st : ℝ × ℝ)
    (arg1 : Option α) : Except ε (ℝ × ℝ) :=
  fortran_module.get_bfield zeta st

/-- `SPECBfield.f_tangent`: the tangent-RHS wrapper.  It forwards
`(zeta, st)` to the oracle's `get_bfield_tangent` unchanged; the optional
`arg1` parameter is accepted and ignored, and any oracle error propagates
verbatim. -/
def f_tangent {ε α : Type} (fortran_module : FortranModule ε) (zeta : ℝ)
    (st : ℝ × ℝ × ℝ × ℝ × ℝ × ℝ) (arg1 : Option α) :
    Except ε (ℝ × ℝ × ℝ × ℝ × ℝ × ℝ) :=
  fortran_module.get_bfield_tangent zeta st

/-- `np.mod(x, 2*np.pi)`: numpy's floored modulo,
`x - 2π·⌊x / (2π)⌋`, used by the slab branch of `convert_coords`. -/
noncomputable def wrap (x : ℝ) : ℝ :=
  x - 2 * π * ⌊x / (2 * π)⌋

/-- `SPECBfield.convert_coords`: query the oracle's `get_xyz` once with the
full `stz` triple (an oracle error propagates and nothing else runs), then
branch on `Igeometry`:
slab (1) returns `(xyz[0], mod(θ,2π)·rpol, mod(ζ,2π)·rtor)`;
cylindrical (2) returns `(xyz[0]·cos θ, ζ·rtor, xyz[0]·sin θ)`;
toroidal (3) returns `xyz` unchanged; any other flag falls off the end of
the Python function and returns `None`, modelled as `Option.none`. -/
noncomputable def convert_coords {ε : Type} (Igeometry : ℤ) (rpol rtor : ℝ)
    (fortran_module : FortranModule ε) (stz : ℝ × ℝ × ℝ) :
    Except ε (Option (ℝ × ℝ × ℝ)) :=
  match fortran_module.get_xyz stz with
  | .error e => .error e
  | .ok xyz =>
    if Igeometry = 1 then
      .ok (some (xyz.1, wrap stz.2.1 * rpol, wrap stz.2.2 * rtor))
    else if Igeometry = 2 then
      .ok (some (xyz.1 * cos stz.2.1, stz.2.2 * rtor, xyz.1 * sin stz.2.1))
    else if Igeometry = 3 then
      .ok (some xyz)
    else
      .ok none

/-- A stub oracle answering every query with a fixed successful tuple,
used to witness the pass-through properties. -/
def oracleConst (ε : Type) (v2 : ℝ × ℝ) (v6 : ℝ × ℝ × ℝ × ℝ × ℝ × ℝ)
    (v3 : ℝ × ℝ × ℝ) : FortranModule ε :=
  ⟨fun _ _ => .ok v2, fun _ _ => .ok v6, fun _ => .ok v3⟩

/-- A stub oracle failing every query with a fixed error, used to witness
the error-propagation properties. -/
def oracleFail (ε : Type) (e : ε) : FortranModule ε :=
  ⟨fun _ _ => .error e, fun _ _ => .error e, fun _ => .error e⟩

/- ## Helper lemmas about `wrap` -/

theorem wrap_eq_fract (x : ℝ) : wrap x = 2 * π * Int.fract (x / (2 * π)) := by
  have h : 2 * π * (x / (2 * π)) = x := by
    field_simp
  rw [wrap, Int.fract, mul_sub, h]

theorem wrap_nonneg (x : ℝ) : 0 ≤ wrap x := by
  rw [wrap_eq_fract]
  exact mul_nonneg (le_of_lt two_pi_pos) (Int.fract_nonneg _)

theorem wrap_lt_two_pi (x : ℝ) : wrap x < 2 * π := by
  rw [wrap_eq_fract]
  calc 2 * π * Int.fract (x / (2 * π)) < 2 * π * 1 :=
        mul_lt_mul_of_pos_left (Int.fract_lt_one _) two_pi_pos
    _ = 2 * π := mul_one _

theorem wrap_add_two_pi_int (x : ℝ) (k : ℤ) : wrap (x + 2 * π * k) = wrap x := by
  have h2 : (x + 2 * π * k) / (2 * π) = x / (2 * π) + (k : ℝ) := by
    field_simp
    ring
  rw [wrap, wrap, h2, Int.floor_add_int]
  push_cast
  ring

theorem wrap_zero : wrap 0 = 0 := by
  rw [wrap_eq_fract]
  simp

theorem wrap_two_pi : wrap (2 * π) = 0 := by
  have h : (2 * π) / (2 * π) = (1 : ℝ) := div_self (ne_of_gt two_pi_pos)
  rw [wrap_eq_fract, h, Int.fract_one, mul_zero]

/- ## Claim theorems -/

/-- C1: In slab geometry (flag 1), when the oracle's coordinate evaluation
on `(s0, θ0, ζ0)` succeeds with physical radius `R0` in its first slot,
`convert_coords` returns exactly `(R0, wrap θ0 · rpol, wrap ζ0 · rtor)`. -/
theorem convert_coords_slab {ε : Type} (rpol rtor : ℝ) (M : FortranModule ε)
    (s0 θ0 ζ0 R0 y0 z0 : ℝ)
    (h : M.get_xyz (s0, θ0, ζ0) = .ok (R0, y0, z0)) :
    convert_coords 1 rpol rtor M (s0, θ0, ζ0) =
      .ok (some (R0, wrap θ0 * rpol, wrap ζ0 * rtor)) := by
  simp [convert_coords, h]

/-- Witness for C1 at a concrete stub oracle and input. -/
theorem convert_coords_slab_witness :
    convert_coords 1 2 3 (oracleConst Unit (0, 0) (0, 0, 0, 0, 0, 0) (5, 0, 0))
      (0, 0, 0) = .ok (some (5, wrap 0 * 2, wrap 0 * 3)) :=
  convert_coords_slab 2 3 _ 0 0 0 5 0 0 rfl

/-- C2: In cylindrical geometry (flag 2), when the oracle's coordinate
evaluation on `(s0, θ0, ζ0)` succeeds with physical radius `R0`,
`convert_coords` returns exactly `(R0·cos θ0, ζ0·rtor, R0·sin θ0)`; the
toroidal angle `ζ0` is used raw, with no wrapping. -/
theorem convert_coords_cylindrical {ε : Type} (rpol rtor : ℝ)
    (M : FortranModule ε) (s0 θ0 ζ0 R0 y0 z0 : ℝ)
    (h : M.get_xyz (s0, θ0, ζ0) = .ok (R0, y0, z0)) :
    convert_coords 2 rpol rtor M (s0, θ0, ζ0) =
      .ok (some (R0 * cos θ0, ζ0 * rtor, R0 * sin θ0)) := by
  simp [convert_coords, h]

/-- Witness for C2 at a concrete stub oracle and input. -/
theorem convert_coords_cylindrical_witness :
    convert_coords 2 2 3 (oracleConst Unit (0, 0) (0, 0, 0, 0, 0, 0) (5, 0, 0))
      (0, 0, 7) = .ok (some (5 * cos 0, 7 * 3, 5 * sin 0)) :=
  convert_coords_cylindrical 2 3 _ 0 0 7 5 0 0 rfl

/-- C3: In toroidal geometry (flag 3), `convert_coords` is the identity
pass-through of the oracle's coordinate evaluation: whatever triple the
oracle returns is returned unmodified. -/
theorem convert_coords_toroidal {ε : Type} (rpol rtor : ℝ)
    (M : FortranModule ε) (stz xyz : ℝ × ℝ × ℝ)
    (h : M.get_xyz stz = .ok xyz) :
    convert_coords 3 rpol rtor M stz = .ok (some xyz) := by
  simp [convert_coords, h]

/-- Witness for C3 at a concrete stub oracle and input. -/
theorem convert_coords_toroidal_witness :
    convert_coords 3 2 3 (oracleConst Unit (0, 0) (0, 0, 0, 0, 0, 0) (5, 0, 0))
      (0, 0, 0) = .ok (some (5, 0, 0)) :=
  convert_coords_toroidal 2 3 _ (0, 0, 0) (5, 0, 0) rfl

/-- C4: Construction with each geometry flag in {1, 2, 3} sets exactly the
(plot type, xlabel, ylabel) triple of the table, together with
`problem_size = 2`. -/
theorem specBfieldInit_table :
    specBfieldInit 1 = .ok ⟨2, "yx", "$\\theta$", "R"⟩ ∧
    specBfieldInit 2 = .ok ⟨2, "RZ", "X(m)", "Y(m)"⟩ ∧
    specBfieldInit 3 = .ok ⟨2, "RZ", "R(m)", "Z(m)"⟩ :=
  ⟨rfl, rfl, rfl⟩

/-- C5: Construction with any geometry flag outside {1, 2, 3} fails with
the `ValueError("Unknown Igeometry!")` and produces no metadata object. -/
theorem specBfieldInit_unknown (g : ℤ) (h1 : g ≠ 1) (h2 : g ≠ 2)
    (h3 : g ≠ 3) :
    specBfieldInit g = .error (.valueError "Unknown Igeometry!") := by
  simp [specBfieldInit, h1, h2, h3]

/-- Witness for C5 at the concrete flag 4. -/
theorem specBfieldInit_unknown_witness :
    specBfieldInit 4 = .error (.valueError "Unknown Igeometry!") :=
  specBfieldInit_unknown 4 (by decide) (by decide) (by decide)

/-- C6: The angle canonicalization `wrap` used by the slab branch lands in
`[0, 2π)`, is `2π`-periodic (for every integer multiple), and is a true
floored modulo: both 0 and 2π map to 0. -/
theorem wrap_canonical (x : ℝ) :
    (0 ≤ wrap x ∧ wrap x < 2 * π) ∧
    (∀ k : ℤ, wrap (x + 2 * π * k) = wrap x) ∧
    wrap 0 = 0 ∧ wrap (2 * π) = 0 :=
  ⟨⟨wrap_nonneg x, wrap_lt_two_pi x⟩, fun k => wrap_add_two_pi_int x k,
    wrap_zero, wrap_two_pi⟩

/-- C7: `f` and `f_tangent` are pure pass-throughs to the oracle's
`get_bfield` and `get_bfield_tangent`; in particular, with a stub oracle
returning a fixed tuple, the output is that tuple for arbitrary `zeta`. -/
theorem f_passthrough {ε α : Type} (M : FortranModule ε) (zeta : ℝ)
    (st : ℝ × ℝ) (st6 : ℝ × ℝ × ℝ × ℝ × ℝ × ℝ) (a : Option α)
    (v2 : ℝ × ℝ) (v6 : ℝ × ℝ × ℝ × ℝ × ℝ × ℝ) (v3 : ℝ × ℝ × ℝ) :
    f M zeta st a = M.get_bfield zeta st ∧
    f_tangent M zeta st6 a = M.get_bfield_tangent zeta st6 ∧
    f (oracleConst ε v2 v6 v3) zeta st a = .ok v2 ∧
    f_tangent (oracleConst ε v2 v6 v3) zeta st6 a = .ok v6 :=
  ⟨rfl, rfl, rfl, rfl⟩

/-- C9: An oracle failure during an RHS, tangent-RHS, or coordinate
evaluation propagates verbatim through `f`, `f_tangent`, and
`convert_coords`: the same error comes back, never a substituted value. -/
theorem oracle_error_propagates {ε α : Type} (g : ℤ) (rpol rtor : ℝ)
    (M : FortranModule ε) (zeta : ℝ) (st : ℝ × ℝ)
    (st6 : ℝ × ℝ × ℝ × ℝ × ℝ × ℝ) (stz : ℝ × ℝ × ℝ) (a : Option α) (e : ε)
    (h1 : M.get_bfield zeta st = .error e)
    (h2 : M.get_bfield_tangent zeta st6 = .error e)
    (h3 : M.get_xyz stz = .error e) :
    f M zeta st a = .error e ∧ f_tangent M zeta st6 a = .error e ∧
    convert_coords g rpol rtor M stz = .error e := by
  refine ⟨h1, h2, ?_⟩
  simp [convert_coords, h3]

/-- Witness for C9 at a concrete always-failing oracle. -/
theorem oracle_error_propagates_witness :
    f (oracleFail String "boom") 0 (0, 0) (none : Option Unit) =
        .error "boom" ∧
    f_tangent (oracleFail String "boom") 0 (0, 0, 0, 0, 0, 0)
        (none : Option Unit) = .error "boom" ∧
    convert_coords 1 2 3 (oracleFail String "boom") (0, 0, 0) =
        .error "boom" :=
  oracle_error_propagates 1 2 3 _ 0 (0, 0) (0, 0, 0, 0, 0, 0) (0, 0, 0)
    none "boom" rfl rfl rfl

/-- C10: The optional `arg1` parameter of `f` and `f_tangent` is ignored:
two calls differing only in `arg1` (even across different `arg1` types)
return identical results. -/
theorem arg1_ignored {ε α β : Type} (M : FortranModule ε) (zeta : ℝ)
    (st : ℝ × ℝ) (st6 : ℝ × ℝ × ℝ × ℝ × ℝ × ℝ) (a : Option α)
    (b : Option β) :
    f M zeta st a = f M zeta st b ∧
    f_tangent M zeta st6 a = f_tangent M zeta st6 b :=
  ⟨rfl, rfl⟩

/-- C8 counterexample: with an unresolved geometry flag (here 4), the code
does not fail loudly: `convert_coords` falls off the end of the function
and silently returns the absent value (`.ok none`), the model of Python's
implicit `None`. -/
theorem convert_coords_unknown_counterexample :
    convert_coords 4 2 3 (oracleConst Unit (0, 0) (0, 0, 0, 0, 0, 0) (5, 0, 0))
      (0, 0, 0) = .ok none := by
  simp [convert_coords, oracleConst]

/-- C8 (amended): with a geometry flag outside {1, 2, 3} and a succeeding
oracle, `convert_coords` silently returns the absent value `none` rather
than raising any error. -/
theorem convert_coords_unknown_geometry {ε : Type} (g : ℤ) (rpol rtor : ℝ)
    (M : FortranModule ε) (stz xyz : ℝ × ℝ × ℝ) (h1 : g ≠ 1) (h2 : g ≠ 2)
    (h3 : g ≠ 3) (h : M.get_xyz stz = .ok xyz) :
    convert_coords g rpol rtor M stz = .ok none := by
  simp [convert_coords, h, h1, h2, h3]

/-- Witness for the amended C8 at the concrete flag 5. -/
theorem convert_coords_unknown_geometry_witness :
    convert_coords 5 2 3 (oracleConst Unit (0, 0) (0, 0, 0, 0, 0, 0) (5, 0, 0))
      (0, 0, 0) = .ok none :=
  convert_coords_unknown_geometry 5 2 3 _ (0, 0, 0) (5, 0, 0) (by decide)
    (by decide) (by decide) rfl
